import Mathlib

/-!
# Verification of the multi-provider reply generation layer (`src/chat.py`)

Shallow embedding of the reply-generation core of the omni_chat repository:
the key resolver (`_get_api_key`), the history normalizers
(`_format_history_for_openai`, `_format_history_for_gemini`,
`_format_history_for_ollama`), the model-family predicate
(`_is_reasoning_model`), the provider adapters' control flow, and the two
orchestrators (`generate_reply`, `generate_reply_stream`).

External effects (process environment, installed SDK modules, HTTP traffic)
are represented by a `World` record: the environment is a total function
from variable name to value (where the empty string stands for an unset
variable, matching `os.getenv(var, "")`), SDK availability is a boolean per
optional import, and the outcome of each provider's network interaction is
an oracle field.  Everything the Python code computes *from* those inputs
(key checks, truthiness tests, branch structure, extraction fallbacks,
token filtering, error-message formatting) is embedded directly from the
source.
-/

/-- A conversation turn as the Python code sees a history dict:
`m.get("role") or "user"` and `m.get("content") or ""` coalesce a missing
key, `None`, and the empty string identically, so an absent field is
represented by `""`. -/
structure Turn where
  role : String
  content : String
deriving DecidableEq, Repr

/-- `ChatReply` dataclass from `src/chat.py`. -/
structure ChatReply where
  reply : String
  warning : Option String := none
  error : Option String := none
  missing_key_for : Option String := none
deriving DecidableEq, Repr

/-- `StreamChunk` dataclass from `src/chat.py`. -/
structure StreamChunk where
  token : Option String := none
  warning : Option String := none
  error : Option String := none
  missing_key_for : Option String := none
deriving DecidableEq, Repr

/-- Outcome of a Python call that may raise: either a normal return value or
an exception carrying its class name and message (the two pieces used by
`f"{e.__class__.__name__}: {e}"`). -/
inductive PyOutcome (α : Type) where
  | ret (a : α)
  | exn (cls msg : String)
deriving DecidableEq, Repr

/-- Result of a Python function that may raise `ValueError` to its caller:
used for `generate_reply` (validation errors propagate) and for
`validate_chat_request`. -/
inductive CallResult (α : Type) where
  | raises (msg : String)
  | returns (a : α)
deriving DecidableEq, Repr

/-- One candidate of a Gemini response: the structured finish reason and the
text parts of its content (each part's `.text`).  `_gemini_call` reads only
`parts`; `finishReason` is carried so that theorems can speak about it. -/
structure GeminiCandidate where
  finishReason : String
  parts : List String
deriving DecidableEq, Repr

/-- Shape of a Gemini response as far as `_gemini_call` inspects it:
`resp.text` (with `""` for an absent or falsy `text` attribute) and the
candidate list fallback. -/
structure GeminiResponse where
  text : String
  candidates : List GeminiCandidate
deriving DecidableEq, Repr

/-- The external world of one orchestrator call: process environment,
optional-import availability, daemon reachability, and the outcome each
provider's network interaction would produce on this call. -/
structure World where
  /-- `os.getenv(var, "")`: `""` stands for unset. -/
  env : String → String
  /-- `OpenAI is not None` (the `openai` package imported). -/
  openaiSDK : Bool
  /-- `genai is not None` (the `google.generativeai` package imported). -/
  genaiSDK : Bool
  /-- `requests is not None`. -/
  requestsLib : Bool
  /-- the local daemon answers the `/api/tags` probe with status 200. -/
  ollamaUp : Bool
  /-- outcome of the OpenAI request plus content extraction (`Option String`:
  the extracted text, or `none` when no content was present). -/
  openaiNet : PyOutcome (Option String)
  /-- outcome of the Gemini request: the response object `_gemini_call`
  inspects, or an exception. -/
  geminiNet : PyOutcome GeminiResponse
  /-- outcome of the Ollama request plus content extraction. -/
  ollamaNet : PyOutcome (Option String)
  /-- OpenAI streaming call: the `content_piece` values produced before the
  stream ended, and an exception if one terminated it. -/
  openaiStreamNet : List String × Option (String × String)
  /-- Gemini streaming call: text pieces produced, and a terminating
  exception if any. -/
  geminiStreamNet : List String × Option (String × String)
  /-- Ollama streaming call: content values produced, and a terminating
  (non-`RequestException`) exception if any. -/
  ollamaStreamNet : List String × Option (String × String)

/-- Python truthiness of an `Optional[str]`: `None` and `""` are falsy. -/
def truthyOpt : Option String → Bool
  | none => false
  | some s => s != ""

/-- Python `str.lower()` restricted to the ASCII case mapping the code relies
on (provider names and model prefixes are ASCII). -/
def pyLower (s : String) : String := ⟨s.data.map Char.toLower⟩

/-- The whitespace characters Python `str.strip()` removes (ASCII range). -/
def isPyWhitespace (c : Char) : Bool :=
  c = ' ' || c = '\t' || c = '\n' || c = '\r' || c = '\x0b' || c = '\x0c'

/-- Python `str.strip()`: drop leading and trailing whitespace. -/
def pyStrip (s : String) : String :=
  ⟨((s.data.dropWhile isPyWhitespace).reverse.dropWhile isPyWhitespace).reverse⟩

/-- Python `s.startswith(p)`. -/
def pyStartsWith (s p : String) : Bool := p.data.isPrefixOf s.data

/-- `_get_api_key` from `src/chat.py`: map the lower-cased provider name to
its environment variable (`""` for ollama and for unknown providers), return
`"local"` when the mapping is empty, else read the environment. -/
def _get_api_key (w : World) (provider : String) : String :=
  let env_var :=
    if pyLower provider = "openai" then "OPENAI_API_KEY"
    else if pyLower provider = "gemini" then "GEMINI_API_KEY"
    else ""
  if env_var = "" then "local" else w.env env_var

/-- `is_ollama_server_running` from `src/chat.py`: `False` when `requests`
is unavailable, else the result of probing `/api/tags`. -/
def is_ollama_server_running (w : World) : Bool :=
  w.requestsLib && w.ollamaUp

/-- The missing-credential test repeated through the OpenAI paths:
`not key or key.startswith("PUT_") or OpenAI is None`. -/
def openaiKeyAbsent (w : World) : Bool :=
  let key := _get_api_key w "openai"
  key == "" || pyStartsWith key "PUT_" || !w.openaiSDK

/-- The missing-credential test repeated through the Gemini paths:
`not key or key.startswith("PUT_") or genai is None`. -/
def geminiKeyAbsent (w : World) : Bool :=
  let key := _get_api_key w "gemini"
  key == "" || pyStartsWith key "PUT_" || !w.genaiSDK

/-- `_format_history_for_openai` from `src/chat.py`: coerce each turn's role
into the allowed set, keep contents, then append the latest message as a
trailing `user` turn. -/
def _format_history_for_openai (history : List Turn) (latest_message : String) :
    List Turn :=
  (history.map fun m =>
    let role := if m.role = "" then "user" else m.role
    let content := m.content
    let role :=
      if role = "user" ∨ role = "assistant" ∨ role = "system" then role else "user"
    ⟨role, content⟩) ++ [⟨"user", latest_message⟩]

/-- One mapped entry of the Gemini paired-shape history: a role label
(`"user"` or `"model"`) and a parts list. -/
structure GemTurn where
  role : String
  parts : List String
deriving DecidableEq, Repr

/-- `_format_history_for_gemini` from `src/chat.py`: coerce roles, map
`assistant` to Gemini's `model` label and everything else to `user`, wrap
each content in a singleton parts list, and pass the latest message through
unchanged. -/
def _format_history_for_gemini (history : List Turn) (latest_message : String) :
    List GemTurn × String :=
  ((history.map fun m =>
    let role := if m.role = "" then "user" else m.role
    let content := m.content
    let role :=
      if role = "user" ∨ role = "assistant" ∨ role = "system" then role else "user"
    let gem_role := if role = "assistant" then "model" else "user"
    ⟨gem_role, [content]⟩), latest_message)

/-- `_format_history_for_ollama` from `src/chat.py`: identical loop to the
OpenAI formatter (the source duplicates it). -/
def _format_history_for_ollama (history : List Turn) (latest_message : String) :
    List Turn :=
  (history.map fun m =>
    let role := if m.role = "" then "user" else m.role
    let content := m.content
    let role :=
      if role = "user" ∨ role = "assistant" ∨ role = "system" then role else "user"
    ⟨role, content⟩) ++ [⟨"user", latest_message⟩]

/-- `_is_reasoning_model` from `src/chat.py`:
`(model or "").lower().startswith("o3")`. -/
def _is_reasoning_model (model : String) : Bool :=
  pyStartsWith (pyLower model) "o3"

/-- `_openai_call` from `src/chat.py`: return `None` when the key is absent
or the SDK is missing; otherwise the request is built (history formatting,
parameter whitelisting, reasoning-vs-chat endpoint selection) and the
network outcome decides the result. -/
def _openai_call (w : World) : PyOutcome (Option String) :=
  if openaiKeyAbsent w then .ret none else w.openaiNet

/-- Text extraction of `_gemini_call` from `src/chat.py`: return `resp.text`
when truthy; otherwise scan the candidates and return the first part of the
first candidate whose parts list is non-empty; otherwise `None`.  The
candidates' finish reasons are never consulted. -/
def extractGeminiText (resp : GeminiResponse) : Option String :=
  if resp.text ≠ "" then some resp.text
  else resp.candidates.findSome? fun cand =>
    match cand.parts with
    | [] => none
    | p :: _ => some p

/-- `_gemini_call` from `src/chat.py`: `None` when the key is absent or the
SDK is missing; otherwise send the message and extract text from the
response. -/
def _gemini_call (w : World) : PyOutcome (Option String) :=
  if geminiKeyAbsent w then .ret none
  else
    match w.geminiNet with
    | .exn cls msg => .exn cls msg
    | .ret resp => .ret (extractGeminiText resp)

/-- `_ollama_call` from `src/chat.py`: `None` when `requests` is missing or
the daemon is not running; otherwise the network outcome decides. -/
def _ollama_call (w : World) : PyOutcome (Option String) :=
  if !(is_ollama_server_running w) then .ret none else w.ollamaNet

/-- `_openai_call_stream` from `src/chat.py` as the sequence of tokens it
yields plus an optional terminating exception: nothing when the key is
absent; for reasoning models, fall back to `_openai_call` and yield its
whole result as one token when truthy; otherwise forward the truthy
`content_piece` values of the network stream. -/
def _openai_call_stream (w : World) (model : String) :
    List String × Option (String × String) :=
  if openaiKeyAbsent w then ([], none)
  else if _is_reasoning_model model then
    match _openai_call w with
    | .exn cls msg => ([], some (cls, msg))
    | .ret content => (if truthyOpt content then [content.getD ""] else [], none)
  else (w.openaiStreamNet.1.filter (fun t => t != ""), w.openaiStreamNet.2)

/-- `_gemini_call_stream` from `src/chat.py`: nothing when the key is
absent; otherwise forward the truthy text pieces of the network stream. -/
def _gemini_call_stream (w : World) :
    List String × Option (String × String) :=
  if geminiKeyAbsent w then ([], none)
  else (w.geminiStreamNet.1.filter (fun t => t != ""), w.geminiStreamNet.2)

/-- `_ollama_call_stream` from `src/chat.py`: nothing when `requests` is
missing or the daemon is not running; otherwise forward the truthy content
values of the newline-delimited JSON stream. -/
def _ollama_call_stream (w : World) :
    List String × Option (String × String) :=
  if !(is_ollama_server_running w) then ([], none)
  else (w.ollamaStreamNet.1.filter (fun t => t != ""), w.ollamaStreamNet.2)

/-- The `StreamChunk(token=...)` constructor call used by the orchestrator. -/
def tokenChunk (t : String) : StreamChunk := ⟨some t, none, none, none⟩

/-- The `StreamChunk(error=...)` constructor call used by the orchestrator. -/
def errorChunk (e : String) : StreamChunk := ⟨none, none, some e, none⟩

/-- The `StreamChunk(error=..., missing_key_for=...)` constructor call used
by the orchestrator. -/
def missingKeyChunk (e p : String) : StreamChunk := ⟨none, none, some e, some p⟩

/-- `generate_reply` from `src/chat.py`: validate provider and model
(`ValueError` on emptiness after trim), dispatch on the lower-cased trimmed
provider name, convert each adapter path into a `ChatReply`, and raise
`ValueError` naming an unrecognized provider. -/
def generate_reply (w : World) (provider model _message : String)
    (_history : List Turn) : CallResult ChatReply :=
  if provider = "" ∨ pyStrip provider = "" then .raises "provider is required"
  else if model = "" ∨ pyStrip model = "" then .raises "model is required"
  else
    if pyStrip (pyLower provider) = "openai" then
      .returns <|
        match _openai_call w with
        | .exn cls msg => ⟨"", none, some ("OpenAI error: " ++ cls ++ ": " ++ msg), none⟩
        | .ret content =>
          if truthyOpt content then ⟨content.getD "", none, none, none⟩
          else if openaiKeyAbsent w then
            ⟨"", none, some "OpenAI API key not set", some "openai"⟩
          else ⟨"", none, some "OpenAI returned no content", none⟩
    else if pyStrip (pyLower provider) = "gemini" then
      .returns <|
        match _gemini_call w with
        | .exn cls msg => ⟨"", none, some ("Gemini error: " ++ cls ++ ": " ++ msg), none⟩
        | .ret content =>
          if truthyOpt content then ⟨content.getD "", none, none, none⟩
          else if geminiKeyAbsent w then
            ⟨"", none, some "Gemini API key not set", some "gemini"⟩
          else ⟨"", none, some "Gemini returned no content", none⟩
    else if pyStrip (pyLower provider) = "ollama" then
      .returns <|
        if !(is_ollama_server_running w) then
          ⟨"", none, some "Ollama server not running", some "ollama"⟩
        else
          match _ollama_call w with
          | .exn cls msg => ⟨"", none, some ("Ollama error: " ++ cls ++ ": " ++ msg), none⟩
          | .ret content =>
            if truthyOpt content then ⟨content.getD "", none, none, none⟩
            else ⟨"", none, some "Ollama returned no content", none⟩
    else .raises ("unknown provider: " ++ provider)

/-- The per-provider loop body shared by the three streaming branches of
`generate_reply_stream`: forward each truthy token as a token chunk while
tracking `had_content`; on an adapter exception emit one terminal error
chunk; if the loop completed with no content emit the single
`"<Provider> returned no content"` error chunk. -/
def streamLoop (result : List String × Option (String × String))
    (pname : String) : List StreamChunk :=
  let toks := (result.1.filter (fun t => t != "")).map tokenChunk
  match result.2 with
  | some (cls, msg) =>
      toks ++ [errorChunk (pname ++ " error: " ++ cls ++ ": " ++ msg)]
  | none =>
      if toks.isEmpty then [errorChunk (pname ++ " returned no content")] else toks

/-- `generate_reply_stream` from `src/chat.py` as the finite list of chunks
the generator yields: validation failures become single error chunks (never
raised), each provider branch checks credential or daemon availability
before starting the adapter's streaming call, and the loop body is
`streamLoop`. -/
def generate_reply_stream (w : World) (provider model _message : String)
    (_history : List Turn) : List StreamChunk :=
  if provider = "" ∨ pyStrip provider = "" then [errorChunk "provider is required"]
  else if model = "" ∨ pyStrip model = "" then [errorChunk "model is required"]
  else
    if pyStrip (pyLower provider) = "openai" then
      if openaiKeyAbsent w then
        [missingKeyChunk "OpenAI API key not set" "openai"]
      else streamLoop (_openai_call_stream w model) "OpenAI"
    else if pyStrip (pyLower provider) = "gemini" then
      if geminiKeyAbsent w then
        [missingKeyChunk "Gemini API key not set" "gemini"]
      else streamLoop (_gemini_call_stream w) "Gemini"
    else if pyStrip (pyLower provider) = "ollama" then
      if !(is_ollama_server_running w) then
        [missingKeyChunk "Ollama server not running" "ollama"]
      else streamLoop (_ollama_call_stream w) "Ollama"
    else [errorChunk ("unknown provider: " ++ provider)]

/-- `validate_chat_request` from `src/utils.py`: the web layer's request
validation, which checks the message (then provider, then model) for
emptiness after trim before the core is ever invoked. -/
def validate_chat_request (message provider model : String) :
    CallResult (String × String × String) :=
  let m := pyStrip message
  if m = "" then .raises "message is required"
  else
    let p := pyStrip provider
    if p = "" then .raises "provider is required"
    else
      let mo := pyStrip model
      if mo = "" then .raises "model is required"
      else .returns (m, p, mo)

/-- Modelled from the spec: the live-search classifier
(`is_live_search_model` in the spec's design notes).  Its implementation is
not among the provided sources; per the spec, a model name matching an exact
"live" identifier (e.g. `"gpt-4.1-live"`, `"gemini-2.5-pro-live"`) is
classified live-search. -/
def is_live_search_model (model : String) : Bool :=
  model == "gpt-4.1-live" || model == "gemini-2.5-pro-live"

/-- Modelled from the spec: the source-URL appending step of
`_gemini_live_call`, which `src/test_gemini_search.py` calls but whose
definition is not among the provided sources.  Per the spec, the Gemini
live-search adapter appends any discoverable citation/source URLs to the
reply text as a `**Sources:**` section (the marker the test looks for),
enumerating the URLs in order; when grounding metadata is present but no
concrete URLs are found it appends an informational note that search was
used; without grounding metadata the base text is returned unchanged. -/
def appendGroundingSources (baseText : String) (groundingPresent : Bool)
    (sourceUrls : List String) : String :=
  if groundingPresent then
    if sourceUrls.isEmpty then
      baseText ++ "\n\n*Web search was used to generate this response.*"
    else
      baseText ++ "\n\n**Sources:**\n"
        ++ String.intercalate "\n" (sourceUrls.map (fun u => "- " ++ u))
  else baseText

/-- A baseline world: no keys configured, all SDKs importable, `requests`
importable, daemon down, all network oracles inert. -/
def worldNoKeys : World where
  env := fun _ => ""
  openaiSDK := true
  genaiSDK := true
  requestsLib := true
  ollamaUp := false
  openaiNet := .ret none
  geminiNet := .ret ⟨"", []⟩
  ollamaNet := .ret none
  openaiStreamNet := ([], none)
  geminiStreamNet := ([], none)
  ollamaStreamNet := ([], none)

/-- A world with both cloud keys configured, the daemon running, and every
provider producing a successful reply. -/
def worldOk : World :=
  { worldNoKeys with
    env := fun v =>
      if v = "OPENAI_API_KEY" then "sk-test-123"
      else if v = "GEMINI_API_KEY" then "gm-test-456"
      else ""
    ollamaUp := true
    openaiNet := .ret (some "Hello")
    geminiNet := .ret ⟨"Hi there", []⟩
    ollamaNet := .ret (some "Hey")
    openaiStreamNet := (["He", "llo"], none)
    geminiStreamNet := (["Hi"], none)
    ollamaStreamNet := (["Hey"], none) }

/-- If a Python `Optional[str]` is truthy, its `getD ""` value is
non-empty. -/
theorem truthyOpt_getD_ne (c : Option String) (hc : truthyOpt c = true) :
    c.getD "" ≠ "" := by
  cases c with
  | none => simp [truthyOpt] at hc
  | some s => simpa [truthyOpt] using hc

/-- C1: whenever `generate_reply` returns a `ChatReply` (rather than raising
a validation error), the result has non-empty `reply` exactly when `error`
is unset, and empty `reply` whenever `error` is set — on every adapter path
(success, missing credential, empty adapter result, adapter exception). -/
theorem generate_reply_result_invariant (w : World)
    (provider model message : String) (history : List Turn) (r : ChatReply)
    (hr : generate_reply w provider model message history = .returns r) :
    (r.error = none → r.reply ≠ "") ∧ (r.error ≠ none → r.reply = "") := by
  unfold generate_reply at hr
  by_cases h1 : provider = "" ∨ pyStrip provider = ""
  · rw [if_pos h1] at hr; exact CallResult.noConfusion hr
  rw [if_neg h1] at hr
  by_cases h2 : model = "" ∨ pyStrip model = ""
  · rw [if_pos h2] at hr; exact CallResult.noConfusion hr
  rw [if_neg h2] at hr
  by_cases hp1 : pyStrip (pyLower provider) = "openai"
  · rw [if_pos hp1] at hr
    injection hr with h
    split at h
    · subst h; exact ⟨fun he => by simp_all, fun _ => rfl⟩
    · split at h
      · subst h
        exact ⟨fun _ => truthyOpt_getD_ne _ (by assumption), fun he => by simp_all⟩
      · split at h <;> (subst h; exact ⟨fun he => by simp_all, fun _ => rfl⟩)
  rw [if_neg hp1] at hr
  by_cases hp2 : pyStrip (pyLower provider) = "gemini"
  · rw [if_pos hp2] at hr
    injection hr with h
    split at h
    · subst h; exact ⟨fun he => by simp_all, fun _ => rfl⟩
    · split at h
      · subst h
        exact ⟨fun _ => truthyOpt_getD_ne _ (by assumption), fun he => by simp_all⟩
      · split at h <;> (subst h; exact ⟨fun he => by simp_all, fun _ => rfl⟩)
  rw [if_neg hp2] at hr
  by_cases hp3 : pyStrip (pyLower provider) = "ollama"
  · rw [if_pos hp3] at hr
    injection hr with h
    split at h
    · subst h; exact ⟨fun he => by simp_all, fun _ => rfl⟩
    · split at h
      · subst h; exact ⟨fun he => by simp_all, fun _ => rfl⟩
      · split at h
        · subst h
          exact ⟨fun _ => truthyOpt_getD_ne _ (by assumption), fun he => by simp_all⟩
        · subst h; exact ⟨fun he => by simp_all, fun _ => rfl⟩
  rw [if_neg hp3] at hr
  exact CallResult.noConfusion hr

/-- Witness for C1: the invariant instantiated on a concrete successful
OpenAI call. -/
theorem generate_reply_result_invariant_witness :
    ((ChatReply.mk "Hello" none none none).error = none →
      (ChatReply.mk "Hello" none none none).reply ≠ "") ∧
    ((ChatReply.mk "Hello" none none none).error ≠ none →
      (ChatReply.mk "Hello" none none none).reply = "") :=
  generate_reply_result_invariant worldOk "openai" "gpt-4" "hi" []
    (ChatReply.mk "Hello" none none none) (by decide)

/-- Counterexample to C2: with a whitespace-only message but valid provider,
model and credentials, `generate_reply` does not fail validation — it runs
the full adapter path and returns the adapter's content, and
`generate_reply_stream` likewise streams the adapter's tokens.  Neither
function checks the message. -/
theorem empty_message_reaches_adapter :
    generate_reply worldOk "openai" "gpt-4" "   " [] =
      .returns (ChatReply.mk "Hello" none none none) ∧
    generate_reply_stream worldOk "openai" "gpt-4" "   " [] =
      [tokenChunk "He", tokenChunk "llo"] := by
  decide

/-- C2 (amended): `generate_reply` and `generate_reply_stream` validate only
the provider and model for emptiness after trim; the empty-message check is
performed upstream by the web layer's `validate_chat_request`, which raises
`"message is required"` before the core is invoked. -/
theorem core_validates_provider_model_not_message (w : World)
    (provider model message : String) (history : List Turn) :
    (pyStrip provider = "" →
      generate_reply w provider model message history =
        .raises "provider is required" ∧
      generate_reply_stream w provider model message history =
        [errorChunk "provider is required"]) ∧
    (pyStrip provider ≠ "" → pyStrip model = "" →
      generate_reply w provider model message history =
        .raises "model is required" ∧
      generate_reply_stream w provider model message history =
        [errorChunk "model is required"]) ∧
    (pyStrip message = "" →
      validate_chat_request message provider model =
        .raises "message is required") := by
  refine ⟨fun hp => ?_, fun hp hm => ?_, fun hmsg => ?_⟩
  · constructor
    · unfold generate_reply
      rw [if_pos (Or.inr hp)]
    · unfold generate_reply_stream
      rw [if_pos (Or.inr hp)]
  · have hnp : ¬(provider = "" ∨ pyStrip provider = "") := by
      rintro (rfl | h)
      · exact hp rfl
      · exact hp h
    constructor
    · unfold generate_reply
      rw [if_neg hnp, if_pos (Or.inr hm)]
    · unfold generate_reply_stream
      rw [if_neg hnp, if_pos (Or.inr hm)]
  · unfold validate_chat_request
    rw [if_pos hmsg]

/-- Witness for the amended C2: the three validation behaviours at concrete
inputs. -/
theorem core_validates_provider_model_not_message_witness :
    (generate_reply worldNoKeys "  " "gpt-4" "hi" [] =
        .raises "provider is required" ∧
      generate_reply_stream worldNoKeys "  " "gpt-4" "hi" [] =
        [errorChunk "provider is required"]) ∧
    (generate_reply worldNoKeys "openai" "" "hi" [] =
        .raises "model is required" ∧
      generate_reply_stream worldNoKeys "openai" "" "hi" [] =
        [errorChunk "model is required"]) ∧
    validate_chat_request " " "openai" "gpt-4" =
      .raises "message is required" :=
  ⟨(core_validates_provider_model_not_message worldNoKeys "  " "gpt-4" "hi" []).1
      (by decide),
   ((core_validates_provider_model_not_message worldNoKeys "openai" "" "hi" []).2.1
      (by decide) (by decide)),
   ((core_validates_provider_model_not_message worldNoKeys "openai" "gpt-4" " " []).2.2
      (by decide))⟩

/-- C3: an unrecognized provider name (after lower-casing and trimming, not
one of openai/gemini/ollama) makes `generate_reply` raise a `ValueError`
whose message names the unknown provider.  The result is the same for every
`World`, so no network activity can influence (or be required for) it. -/
theorem generate_reply_unknown_provider (w : World)
    (provider model message : String) (history : List Turn)
    (hp : pyStrip provider ≠ "") (hm : pyStrip model ≠ "")
    (h1 : pyStrip (pyLower provider) ≠ "openai")
    (h2 : pyStrip (pyLower provider) ≠ "gemini")
    (h3 : pyStrip (pyLower provider) ≠ "ollama") :
    generate_reply w provider model message history =
      .raises ("unknown provider: " ++ provider) := by
  have hnp : ¬(provider = "" ∨ pyStrip provider = "") := by
    rintro (rfl | h)
    · exact hp rfl
    · exact hp h
  have hnm : ¬(model = "" ∨ pyStrip model = "") := by
    rintro (rfl | h)
    · exact hm rfl
    · exact hm h
  unfold generate_reply
  rw [if_neg hnp, if_neg hnm, if_neg h1, if_neg h2, if_neg h3]

/-- Witness for C3: the unknown provider `"anthropic"` raises at a concrete
input. -/
theorem generate_reply_unknown_provider_witness :
    generate_reply worldOk "anthropic" "claude-3" "hi" [] =
      .raises ("unknown provider: " ++ "anthropic") :=
  generate_reply_unknown_provider worldOk "anthropic" "claude-3" "hi" []
    (by decide) (by decide) (by decide) (by decide) (by decide)

/-- A world where OpenAI is configured, the non-streaming call returns the
fixed text `"REASONED"`, and the streaming oracle holds decoy tokens that a
reasoning model must never emit. -/
def worldReasoning : World :=
  { worldOk with
    openaiNet := .ret (some "REASONED")
    openaiStreamNet := (["SHOULD", "NOT", "STREAM"], none) }

/-- C4: a model is classified reasoning exactly when its lower-cased name
starts with `"o3"`, and for such a model the OpenAI streaming path performs
the non-streaming call and emits its entire non-empty result as exactly one
token, after which the stream ends — the streaming network oracle is never
consulted. -/
theorem reasoning_model_stream_single_token (w : World)
    (model message : String) (history : List Turn) (s : String)
    (hm : pyStrip model ≠ "")
    (hkey : openaiKeyAbsent w = false)
    (hr : _is_reasoning_model model = true)
    (hc : _openai_call w = .ret (some s)) (hs : s ≠ "") :
    (_is_reasoning_model model = pyStartsWith (pyLower model) "o3") ∧
    generate_reply_stream w "openai" model message history = [tokenChunk s] := by
  refine ⟨rfl, ?_⟩
  have hnm : ¬(model = "" ∨ pyStrip model = "") := by
    rintro (rfl | h)
    · exact hm rfl
    · exact hm h
  unfold generate_reply_stream
  rw [if_neg (by decide), if_neg hnm, if_pos (by decide),
    if_neg (by simp [hkey])]
  unfold _openai_call_stream
  rw [if_neg (by simp [hkey]), if_pos hr, hc]
  simp [streamLoop, truthyOpt, hs, tokenChunk]

/-- Witness for C4: the spec's scenario — `model="o3-mini"`, non-streaming
result `"REASONED"` — yields exactly one token chunk. -/
theorem reasoning_model_stream_single_token_witness :
    (_is_reasoning_model "o3-mini" = pyStartsWith (pyLower "o3-mini") "o3") ∧
    generate_reply_stream worldReasoning "openai" "o3-mini" "hi" [] =
      [tokenChunk "REASONED"] :=
  reasoning_model_stream_single_token worldReasoning "o3-mini" "hi" [] "REASONED"
    (by decide) (by decide) (by decide) (by decide) (by decide)

/-- C6: when the OpenAI credential is absent — empty or carrying the
`"PUT_"` placeholder prefix — `generate_reply` with a non-empty model
returns exactly
`ChatReply(reply="", error="OpenAI API key not set", missing_key_for="openai")`
without raising. -/
theorem missing_openai_key_reply (w : World) (model message : String)
    (history : List Turn) (hm : pyStrip model ≠ "")
    (hkey : _get_api_key w "openai" = "" ∨
      pyStartsWith (_get_api_key w "openai") "PUT_" = true) :
    generate_reply w "openai" model message history =
      .returns (ChatReply.mk "" none (some "OpenAI API key not set")
        (some "openai")) := by
  have habs : openaiKeyAbsent w = true := by
    unfold openaiKeyAbsent
    rcases hkey with h | h <;> simp [h]
  have hcall : _openai_call w = .ret none := by
    unfold _openai_call
    rw [if_pos habs]
  have hnm : ¬(model = "" ∨ pyStrip model = "") := by
    rintro (rfl | h)
    · exact hm rfl
    · exact hm h
  unfold generate_reply
  rw [if_neg (by decide), if_neg hnm, if_pos (by decide), hcall]
  simp [truthyOpt, habs]

/-- Witness for C6: no credential configured, concrete model. -/
theorem missing_openai_key_reply_witness :
    generate_reply worldNoKeys "openai" "gpt-4" "hi" [] =
      .returns (ChatReply.mk "" none (some "OpenAI API key not set")
        (some "openai")) :=
  missing_openai_key_reply worldNoKeys "gpt-4" "hi" [] (by decide)
    (Or.inl (by decide))

/-- `streamLoop` on an empty, exception-free adapter stream emits exactly
the single `"<Provider> returned no content"` error chunk. -/
theorem streamLoop_empty (pname : String) :
    streamLoop ([], none) pname =
      [errorChunk (pname ++ " returned no content")] := by
  simp [streamLoop]

/-- C5: in `generate_reply_stream`, availability is decided before the
adapter's streaming call: when the credential (or daemon) is missing the
single emitted event is the missing-key error, for every streaming oracle;
and when it is present but the adapter's streaming call yields zero tokens
and raises nothing, the single emitted event is
`"<Provider> returned no content"` — for each of the three providers. -/
theorem stream_availability_and_no_content (w : World)
    (model message : String) (history : List Turn)
    (hm : pyStrip model ≠ "") :
    (openaiKeyAbsent w = true →
      generate_reply_stream w "openai" model message history =
        [missingKeyChunk "OpenAI API key not set" "openai"]) ∧
    (openaiKeyAbsent w = false → _openai_call_stream w model = ([], none) →
      generate_reply_stream w "openai" model message history =
        [errorChunk "OpenAI returned no content"]) ∧
    (geminiKeyAbsent w = true →
      generate_reply_stream w "gemini" model message history =
        [missingKeyChunk "Gemini API key not set" "gemini"]) ∧
    (geminiKeyAbsent w = false → _gemini_call_stream w = ([], none) →
      generate_reply_stream w "gemini" model message history =
        [errorChunk "Gemini returned no content"]) ∧
    (is_ollama_server_running w = false →
      generate_reply_stream w "ollama" model message history =
        [missingKeyChunk "Ollama server not running" "ollama"]) ∧
    (is_ollama_server_running w = true → _ollama_call_stream w = ([], none) →
      generate_reply_stream w "ollama" model message history =
        [errorChunk "Ollama returned no content"]) := by
  have hnm : ¬(model = "" ∨ pyStrip model = "") := by
    rintro (rfl | h)
    · exact hm rfl
    · exact hm h
  refine ⟨fun ha => ?_, fun ha hz => ?_, fun ha => ?_, fun ha hz => ?_,
    fun ha => ?_, fun ha hz => ?_⟩
  · unfold generate_reply_stream
    rw [if_neg (by decide), if_neg hnm, if_pos (by decide), if_pos ha]
  · unfold generate_reply_stream
    rw [if_neg (by decide), if_neg hnm, if_pos (by decide),
      if_neg (by simp [ha]), hz, streamLoop_empty]
    decide
  · unfold generate_reply_stream
    rw [if_neg (by decide), if_neg hnm, if_neg (by decide),
      if_pos (by decide), if_pos ha]
  · unfold generate_reply_stream
    rw [if_neg (by decide), if_neg hnm, if_neg (by decide),
      if_pos (by decide), if_neg (by simp [ha]), hz, streamLoop_empty]
    decide
  · unfold generate_reply_stream
    rw [if_neg (by decide), if_neg hnm, if_neg (by decide),
      if_neg (by decide), if_pos (by decide), if_pos (by simp [ha])]
  · unfold generate_reply_stream
    rw [if_neg (by decide), if_neg hnm, if_neg (by decide),
      if_neg (by decide), if_pos (by decide), if_neg (by simp [ha]), hz,
      streamLoop_empty]
    decide

/-- A world with both keys configured and the daemon running, but every
streaming oracle producing zero tokens and no exception. -/
def worldEmptyStreams : World :=
  { worldOk with
    openaiStreamNet := ([], none)
    geminiStreamNet := ([], none)
    ollamaStreamNet := ([], none) }

/-- Witness for C5: missing-key first-and-only events on an unconfigured
world, and no-content events on a configured world with empty streams. -/
theorem stream_availability_and_no_content_witness :
    (generate_reply_stream worldNoKeys "openai" "gpt-4" "hi" [] =
        [missingKeyChunk "OpenAI API key not set" "openai"]) ∧
    (generate_reply_stream worldEmptyStreams "openai" "gpt-4" "hi" [] =
        [errorChunk "OpenAI returned no content"]) ∧
    (generate_reply_stream worldNoKeys "gemini" "gemini-2.5-pro" "hi" [] =
        [missingKeyChunk "Gemini API key not set" "gemini"]) ∧
    (generate_reply_stream worldEmptyStreams "gemini" "gemini-2.5-pro" "hi" [] =
        [errorChunk "Gemini returned no content"]) ∧
    (generate_reply_stream worldNoKeys "ollama" "llama3" "hi" [] =
        [missingKeyChunk "Ollama server not running" "ollama"]) ∧
    (generate_reply_stream worldEmptyStreams "ollama" "llama3" "hi" [] =
        [errorChunk "Ollama returned no content"]) :=
  ⟨(stream_availability_and_no_content worldNoKeys "gpt-4" "hi" []
      (by decide)).1 (by decide),
   (stream_availability_and_no_content worldEmptyStreams "gpt-4" "hi" []
      (by decide)).2.1 (by decide) (by decide),
   (stream_availability_and_no_content worldNoKeys "gemini-2.5-pro" "hi" []
      (by decide)).2.2.1 (by decide),
   (stream_availability_and_no_content worldEmptyStreams "gemini-2.5-pro" "hi" []
      (by decide)).2.2.2.1 (by decide) (by decide),
   (stream_availability_and_no_content worldNoKeys "llama3" "hi" []
      (by decide)).2.2.2.2.1 (by decide),
   (stream_availability_and_no_content worldEmptyStreams "llama3" "hi" []
      (by decide)).2.2.2.2.2 (by decide) (by decide)⟩

/-- C7: each history-normalization function emits one entry per input turn,
in the original order (stated as a pointwise `Forall₂` correspondence, which
forces equal lengths and index-wise association): contents are preserved,
every output role lies in the formatter's allowed set, an allowed role is
kept and any other role is coerced to `user` (for Gemini, `assistant` maps
to `model` and everything else to `user`); the flat-array formatters append
the latest message as a final `user` turn. -/
theorem history_normalization (hist : List Turn) (latest_message : String) :
    (_format_history_for_openai hist latest_message).length = hist.length + 1 ∧
    List.Forall₂ (fun m t : Turn =>
        t.content = m.content ∧
        (t.role = "user" ∨ t.role = "assistant" ∨ t.role = "system") ∧
        ((m.role = "user" ∨ m.role = "assistant" ∨ m.role = "system") →
          t.role = m.role) ∧
        (¬(m.role = "user" ∨ m.role = "assistant" ∨ m.role = "system") →
          t.role = "user"))
      hist ((_format_history_for_openai hist latest_message).take hist.length) ∧
    (_format_history_for_openai hist latest_message).getLast? =
      some ⟨"user", latest_message⟩ ∧
    _format_history_for_ollama hist latest_message =
      _format_history_for_openai hist latest_message ∧
    List.Forall₂ (fun (m : Turn) (g : GemTurn) =>
        g.parts = [m.content] ∧
        (g.role = "user" ∨ g.role = "model") ∧
        (m.role = "assistant" → g.role = "model") ∧
        (m.role ≠ "assistant" → g.role = "user"))
      hist (_format_history_for_gemini hist latest_message).1 ∧
    (_format_history_for_gemini hist latest_message).2 = latest_message := by
  refine ⟨?_, ?_, ?_, rfl, ?_, rfl⟩
  · simp [_format_history_for_openai]
  · unfold _format_history_for_openai
    rw [List.take_left' (by simp)]
    rw [List.forall₂_map_right_iff, List.forall₂_same]
    intro m _
    dsimp only
    by_cases h0 : m.role = "" <;>
      by_cases hin : m.role = "user" ∨ m.role = "assistant" ∨ m.role = "system" <;>
      simp_all
  · unfold _format_history_for_openai
    simp
  · unfold _format_history_for_gemini
    dsimp only
    rw [List.forall₂_map_right_iff, List.forall₂_same]
    intro m _
    dsimp only
    by_cases h0 : m.role = "" <;>
      by_cases ha : m.role = "assistant" <;>
      by_cases hin : m.role = "user" ∨ m.role = "assistant" ∨ m.role = "system" <;>
      simp_all

/-- A world where Gemini is configured and the response carries a `SAFETY`
finish reason with no extractable text. -/
def worldGeminiSafety : World :=
  { worldOk with
    geminiNet := .ret ⟨"", [⟨"SAFETY", []⟩]⟩ }

/-- The candidate-scanning step of `_gemini_call` is blind to finish
reasons: rewriting every candidate's finish reason leaves it unchanged. -/
theorem findSome?_parts_map (f : String) (cs : List GeminiCandidate) :
    ((cs.map fun c => (⟨f, c.parts⟩ : GeminiCandidate)).findSome? fun cand =>
        match cand.parts with
        | [] => none
        | p :: _ => some p) =
    (cs.findSome? fun cand =>
        match cand.parts with
        | [] => none
        | p :: _ => some p) := by
  induction cs with
  | nil => rfl
  | cons c cs ih =>
    simp only [List.map_cons, List.findSome?_cons]
    cases hp : c.parts with
    | nil => simpa [hp] using ih
    | cons p ps => simp [hp]

/-- The candidate scan of `_gemini_call` finds nothing when every candidate
has an empty parts list. -/
theorem findSome?_parts_none (cs : List GeminiCandidate)
    (h : ∀ c ∈ cs, c.parts = []) :
    (cs.findSome? fun cand =>
        match cand.parts with
        | [] => none
        | p :: _ => some p) = none := by
  induction cs with
  | nil => rfl
  | cons c cs ih =>
    simp only [List.findSome?_cons, h c (List.mem_cons_self c cs)]
    exact ih fun d hd => h d (List.mem_cons_of_mem c hd)

/-- Counterexample to C8: on a Gemini response whose (only) candidate has
finish reason `SAFETY` and no text, `generate_reply` returns the generic
`"Gemini returned no content"` error with empty reply — not a fixed
refusal sentence with `error` unset.  `_gemini_call` never inspects the
finish reason. -/
theorem gemini_safety_counterexample :
    generate_reply worldGeminiSafety "gemini" "gemini-2.5-pro" "hi" [] =
      .returns (ChatReply.mk "" none (some "Gemini returned no content")
        none) := by
  decide

/-- C8 (amended): the Gemini adapter in `src/chat.py` ignores finish reasons
entirely.  Text extraction is unchanged under any rewriting of the
candidates' finish reasons; a response with non-empty `text` is returned as
a successful reply whatever its finish reason (so length-truncated
responses do proceed with normal text extraction); and a response with no
text and no candidate parts — e.g. a safety-filtered one — yields the
generic `"Gemini returned no content"` error, not a refusal sentence. -/
theorem gemini_ignores_finish_reason (w : World) (model message : String)
    (history : List Turn) (resp : GeminiResponse) (f : String)
    (hm : pyStrip model ≠ "")
    (hkey : geminiKeyAbsent w = false)
    (hnet : w.geminiNet = .ret resp) :
    (extractGeminiText
        ⟨resp.text, resp.candidates.map fun c => ⟨f, c.parts⟩⟩ =
      extractGeminiText resp) ∧
    (resp.text ≠ "" →
      generate_reply w "gemini" model message history =
        .returns (ChatReply.mk resp.text none none none)) ∧
    (resp.text = "" → (∀ c ∈ resp.candidates, c.parts = []) →
      generate_reply w "gemini" model message history =
        .returns (ChatReply.mk "" none (some "Gemini returned no content")
          none)) := by
  have hnm : ¬(model = "" ∨ pyStrip model = "") := by
    rintro (rfl | h)
    · exact hm rfl
    · exact hm h
  refine ⟨?_, fun ht => ?_, fun ht hparts => ?_⟩
  · unfold extractGeminiText
    dsimp only
    rcases eq_or_ne resp.text "" with h | h
    · rw [if_neg (by simp [h]), if_neg (by simp [h])]
      exact findSome?_parts_map f resp.candidates
    · rw [if_pos h, if_pos h]
  · have hcall : _gemini_call w = .ret (some resp.text) := by
      unfold _gemini_call
      rw [if_neg (by simp [hkey]), hnet]
      show PyOutcome.ret (extractGeminiText resp) = _
      unfold extractGeminiText
      rw [if_pos ht]
    unfold generate_reply
    rw [if_neg (by decide), if_neg hnm, if_neg (by decide),
      if_pos (by decide), hcall]
    simp [truthyOpt, ht]
  · have hext : extractGeminiText resp = none := by
      unfold extractGeminiText
      rw [if_neg (by simp [ht])]
      exact findSome?_parts_none resp.candidates hparts
    have hcall : _gemini_call w = .ret none := by
      unfold _gemini_call
      rw [if_neg (by simp [hkey]), hnet]
      show PyOutcome.ret (extractGeminiText resp) = _
      rw [hext]
    unfold generate_reply
    rw [if_neg (by decide), if_neg hnm, if_neg (by decide),
      if_pos (by decide), hcall]
    simp [truthyOpt, hkey]

/-- Witness for the amended C8: finish-reason independence and the
no-content outcome on the safety world, and the successful-text outcome on
the configured world. -/
theorem gemini_ignores_finish_reason_witness :
    (extractGeminiText
        ⟨"", ([⟨"SAFETY", []⟩] : List GeminiCandidate).map
            fun c => ⟨"RECITATION", c.parts⟩⟩ =
      extractGeminiText ⟨"", [⟨"SAFETY", []⟩]⟩) ∧
    (generate_reply worldGeminiSafety "gemini" "gemini-2.5-pro" "hi" [] =
      .returns (ChatReply.mk "" none (some "Gemini returned no content")
        none)) ∧
    (generate_reply worldOk "gemini" "gemini-2.5-pro" "hi" [] =
      .returns (ChatReply.mk "Hi there" none none none)) :=
  ⟨(gemini_ignores_finish_reason worldGeminiSafety "gemini-2.5-pro" "hi" []
      ⟨"", [⟨"SAFETY", []⟩]⟩ "RECITATION" (by decide) (by decide) rfl).1,
   (gemini_ignores_finish_reason worldGeminiSafety "gemini-2.5-pro" "hi" []
      ⟨"", [⟨"SAFETY", []⟩]⟩ "RECITATION" (by decide) (by decide) rfl).2.2
      rfl (by decide),
   (gemini_ignores_finish_reason worldOk "gemini-2.5-pro" "hi" []
      ⟨"Hi there", []⟩ "STOP" (by decide) (by decide) rfl).2.1
      (by decide)⟩

/-- C9 (modelled from the spec; the live-search adapter's code is not among
the provided sources): `"gemini-2.5-pro-live"` is classified live-search
(and the plain model name is not), and the Gemini live call appends a
`**Sources:**` section enumerating exactly the discovered URLs in order;
with grounding metadata but no URLs it appends the informational
search-was-used note; without grounding metadata the text is unchanged. -/
theorem live_search_sources (base : String) (urls : List String)
    (hne : urls ≠ []) :
    is_live_search_model "gemini-2.5-pro-live" = true ∧
    is_live_search_model "gemini-2.5-pro" = false ∧
    appendGroundingSources base true urls =
      base ++ "\n\n**Sources:**\n" ++
        String.intercalate "\n" (urls.map fun u => "- " ++ u) ∧
    appendGroundingSources base true [] =
      base ++ "\n\n*Web search was used to generate this response.*" ∧
    appendGroundingSources base false urls = base := by
  refine ⟨by decide, by decide, ?_, by simp [appendGroundingSources],
    by simp [appendGroundingSources]⟩
  have he : urls.isEmpty = false := by
    cases urls with
    | nil => exact absurd rfl hne
    | cons a l => rfl
  simp [appendGroundingSources, he]

/-- Witness for C9: the spec's scenario with two source URLs. -/
theorem live_search_sources_witness :
    is_live_search_model "gemini-2.5-pro-live" = true ∧
    appendGroundingSources "Answer" true
        ["https://a.example", "https://b.example"] =
      "Answer" ++ "\n\n**Sources:**\n" ++
        String.intercalate "\n"
          (["https://a.example", "https://b.example"].map fun u => "- " ++ u) :=
  ⟨(live_search_sources "Answer" ["https://a.example", "https://b.example"]
      (by decide)).1,
   (live_search_sources "Answer" ["https://a.example", "https://b.example"]
      (by decide)).2.2.1⟩

/-- Every chunk but (possibly) the last one emitted by a provider loop of
`generate_reply_stream` is a token chunk: error chunks occur only in final
position. -/
theorem streamLoop_dropLast_no_error
    (res : List String × Option (String × String)) (pname : String) :
    ∀ c ∈ (streamLoop res pname).dropLast, c.error = none := by
  obtain ⟨toks, exn⟩ := res
  have hmem : ∀ c ∈ (toks.filter (fun t => t != "")).map tokenChunk,
      c.error = none := by
    intro c hc
    obtain ⟨t, _, rfl⟩ := List.mem_map.mp hc
    rfl
  cases exn with
  | some e =>
    obtain ⟨cls, msg⟩ := e
    intro c hc
    unfold streamLoop at hc
    rw [show ((toks.filter (fun t => t != "")).map tokenChunk ++
        [errorChunk (pname ++ " error: " ++ cls ++ ": " ++ msg)]).dropLast =
        (toks.filter (fun t => t != "")).map tokenChunk from by simp] at hc
    exact hmem c hc
  | none =>
    intro c hc
    unfold streamLoop at hc
    dsimp only at hc
    by_cases he : ((toks.filter (fun t => t != "")).map tokenChunk).isEmpty
    · rw [if_pos he] at hc
      simp at hc
    · rw [if_neg he] at hc
      exact hmem c (List.dropLast_subset _ hc)

/-- C10: `generate_reply_stream` never lets an exception escape: empty
provider, empty model, and an unrecognized provider each yield exactly one
error chunk (no token events, nothing raised); an adapter exception in any
provider's streaming call is converted into a single terminal error chunk
after the already-forwarded tokens; and — for every input whatsoever —
every chunk before the last has `error` unset, so nothing follows an error
chunk. -/
theorem stream_never_raises (w : World) (provider model message : String)
    (history : List Turn) :
    (pyStrip provider = "" →
      generate_reply_stream w provider model message history =
        [errorChunk "provider is required"]) ∧
    (pyStrip provider ≠ "" → pyStrip model = "" →
      generate_reply_stream w provider model message history =
        [errorChunk "model is required"]) ∧
    (pyStrip provider ≠ "" → pyStrip model ≠ "" →
      pyStrip (pyLower provider) ≠ "openai" →
      pyStrip (pyLower provider) ≠ "gemini" →
      pyStrip (pyLower provider) ≠ "ollama" →
      generate_reply_stream w provider model message history =
        [errorChunk ("unknown provider: " ++ provider)]) ∧
    (∀ toks cls msg, pyStrip model ≠ "" → openaiKeyAbsent w = false →
      _openai_call_stream w model = (toks, some (cls, msg)) →
      generate_reply_stream w "openai" model message history =
        (toks.filter (fun t => t != "")).map tokenChunk ++
          [errorChunk ("OpenAI error: " ++ cls ++ ": " ++ msg)]) ∧
    (∀ toks cls msg, pyStrip model ≠ "" → geminiKeyAbsent w = false →
      _gemini_call_stream w = (toks, some (cls, msg)) →
      generate_reply_stream w "gemini" model message history =
        (toks.filter (fun t => t != "")).map tokenChunk ++
          [errorChunk ("Gemini error: " ++ cls ++ ": " ++ msg)]) ∧
    (∀ toks cls msg, pyStrip model ≠ "" → is_ollama_server_running w = true →
      _ollama_call_stream w = (toks, some (cls, msg)) →
      generate_reply_stream w "ollama" model message history =
        (toks.filter (fun t => t != "")).map tokenChunk ++
          [errorChunk ("Ollama error: " ++ cls ++ ": " ++ msg)]) ∧
    (∀ c ∈ (generate_reply_stream w provider model message history).dropLast,
      c.error = none) := by
  refine ⟨fun hp => ?_, fun hp hm => ?_, fun hp hm h1 h2 h3 => ?_,
    fun toks cls msg hm hk hz => ?_, fun toks cls msg hm hk hz => ?_,
    fun toks cls msg hm hk hz => ?_, ?_⟩
  · unfold generate_reply_stream
    rw [if_pos (Or.inr hp)]
  · have hnp : ¬(provider = "" ∨ pyStrip provider = "") := by
      rintro (rfl | h)
      · exact hp rfl
      · exact hp h
    unfold generate_reply_stream
    rw [if_neg hnp, if_pos (Or.inr hm)]
  · have hnp : ¬(provider = "" ∨ pyStrip provider = "") := by
      rintro (rfl | h)
      · exact hp rfl
      · exact hp h
    have hnm : ¬(model = "" ∨ pyStrip model = "") := by
      rintro (rfl | h)
      · exact hm rfl
      · exact hm h
    unfold generate_reply_stream
    rw [if_neg hnp, if_neg hnm, if_neg h1, if_neg h2, if_neg h3]
  · have hnm : ¬(model = "" ∨ pyStrip model = "") := by
      rintro (rfl | h)
      · exact hm rfl
      · exact hm h
    unfold generate_reply_stream
    rw [if_neg (by decide), if_neg hnm, if_pos (by decide),
      if_neg (by simp [hk]), hz]
    rfl
  · have hnm : ¬(model = "" ∨ pyStrip model = "") := by
      rintro (rfl | h)
      · exact hm rfl
      · exact hm h
    unfold generate_reply_stream
    rw [if_neg (by decide), if_neg hnm, if_neg (by decide),
      if_pos (by decide), if_neg (by simp [hk]), hz]
    rfl
  · have hnm : ¬(model = "" ∨ pyStrip model = "") := by
      rintro (rfl | h)
      · exact hm rfl
      · exact hm h
    unfold generate_reply_stream
    rw [if_neg (by decide), if_neg hnm, if_neg (by decide),
      if_neg (by decide), if_pos (by decide), if_neg (by simp [hk]), hz]
    rfl
  · unfold generate_reply_stream
    by_cases h1 : provider = "" ∨ pyStrip provider = ""
    · rw [if_pos h1]
      intro c hc
      simp at hc
    rw [if_neg h1]
    by_cases h2 : model = "" ∨ pyStrip model = ""
    · rw [if_pos h2]
      intro c hc
      simp at hc
    rw [if_neg h2]
    by_cases hp1 : pyStrip (pyLower provider) = "openai"
    · rw [if_pos hp1]
      by_cases hk : openaiKeyAbsent w = true
      · rw [if_pos hk]
        intro c hc
        simp at hc
      · rw [if_neg hk]
        exact streamLoop_dropLast_no_error _ _
    rw [if_neg hp1]
    by_cases hp2 : pyStrip (pyLower provider) = "gemini"
    · rw [if_pos hp2]
      by_cases hk : geminiKeyAbsent w = true
      · rw [if_pos hk]
        intro c hc
        simp at hc
      · rw [if_neg hk]
        exact streamLoop_dropLast_no_error _ _
    rw [if_neg hp2]
    by_cases hp3 : pyStrip (pyLower provider) = "ollama"
    · rw [if_pos hp3]
      by_cases hk : (!is_ollama_server_running w) = true
      · rw [if_pos hk]
        intro c hc
        simp at hc
      · rw [if_neg hk]
        exact streamLoop_dropLast_no_error _ _
    rw [if_neg hp3]
    intro c hc
    simp at hc

/-- A world where OpenAI streaming yields one token and then raises. -/
def worldStreamExn : World :=
  { worldOk with
    openaiStreamNet := (["tok"], some ("RuntimeError", "boom")) }

/-- Witness for C10: validation error chunk, exception-to-terminal-error
conversion, and terminality, at concrete inputs. -/
theorem stream_never_raises_witness :
    (generate_reply_stream worldOk "" "gpt-4" "hi" [] =
      [errorChunk "provider is required"]) ∧
    (generate_reply_stream worldStreamExn "openai" "gpt-4" "hi" [] =
      (["tok"].filter (fun t => t != "")).map tokenChunk ++
        [errorChunk ("OpenAI error: " ++ "RuntimeError" ++ ": " ++ "boom")]) ∧
    (∀ c ∈ (generate_reply_stream worldStreamExn "openai" "gpt-4" "hi"
        []).dropLast, c.error = none) :=
  ⟨(stream_never_raises worldOk "" "gpt-4" "hi" []).1 (by decide),
   (stream_never_raises worldStreamExn "openai" "gpt-4" "hi" []).2.2.2.1
      ["tok"] "RuntimeError" "boom" (by decide) (by decide) (by decide),
   (stream_never_raises worldStreamExn "openai" "gpt-4" "hi" []).2.2.2.2.2.2⟩
